import Mathlib

/-!
# TextureDecoder JNI bridge (UnityKt, `TextureDecoderNative`)

Shallow embedding of
`src/TextureDecoderNative/io_github_deficuet_unitykt_extension_TextureDecoder.cc`.

The bridge is stateful only through its calls to the outside world (the JNI
environment, the crunch unpackers, the block codecs and `delete[]`).  Those
calls are made explicit: every function threads a `JState` that holds the
contents of the Java array `out` and the ordered trace of external calls.
A native pointer is embedded as an `Option` of the memory it points to, so
`none` is `nullptr`.

The Java array `out` is a `jbyteArray` that the native side addresses through
a `uint32_t *`; it is embedded as the list of its 32-bit words.
-/

/-- Contents of a byte buffer (`uint8_t` each). -/
abbrev Bytes := List Nat

/-- Contents of the output buffer seen through `uint32_t *` (one word per pixel). -/
abbrev Words := List Nat

/-- The JNI release mode `JNI_ABORT` (free the view, no copy-back). -/
def JNI_ABORT : Int := 2

/-- The two Java arrays an entry point receives. -/
inductive JArray
  | data
  | out
  deriving DecidableEq

/-- The block codecs called by the bridge, named as the functions of `lib/*.h`. -/
inductive Codec
  | decode_bc1 | decode_bc3 | decode_bc4 | decode_bc5 | decode_bc6 | decode_bc7
  | decode_pvrtc
  | decode_etc1 | decode_etc2 | decode_etc2a1 | decode_etc2a8
  | decode_atc_rgb4 | decode_atc_rgba8
  | decode_astc
  | decode_eacr | decode_eacr_signed | decode_eacrg | decode_eacrg_signed
  deriving DecidableEq

/-- The two functions a `CrunchUnpackCallable` can point to. -/
inductive CrunchUnpackCallable
  | crunch_unpack_level
  | unity_crunch_unpack_level
  deriving DecidableEq

/-- What an unpacker leaves behind: its `bool` result and the final values of
`*ret` and `*ret_size` (both start as `nullptr` and `0` in every caller). -/
structure UnpackResult where
  ok : Bool
  ret : Option Bytes
  retSize : Nat

/-- One call that leaves the bridge, in the order the bridge makes them. -/
inductive Event
  | GetArrayLength (a : JArray)
  | GetPrimitiveArrayCritical (a : JArray) (nonNull : Bool)
  | ReleasePrimitiveArrayCritical (a : JArray) (mode : Int)
  | FindClass (name : String)
  | ThrowNew (msg : String)
  | unpack (callable : CrunchUnpackCallable) (data : Option Bytes) (dataSize : Nat) (level : Nat)
  | deleteArr (p : Bytes)
  | decode (c : Codec) (input : Option Bytes) (w h : Int) (params : List Int)
      (image : Option Words)
  deriving DecidableEq

/-- The world outside the bridge, fixed for one call.
* `pinData`, `pinOut`: whether `GetPrimitiveArrayCritical` returns a non-null
  pointer for `data` and for `out`;
* `outIsCopy`: whether the pointer handed out for `out` is a copy of the array
  (so that only a copying-back release makes native writes visible) or the
  array itself;
* the two crunch unpackers of `lib/crunch.h` and `lib/unitycrunch.h`, as
  functions of `(data, data_size, level_index)`;
* `surface c input w h params i`: pixel `i` of the surface that block codec
  `c` decodes from `input`. -/
structure Env where
  pinData : Bool
  pinOut : Bool
  outIsCopy : Bool
  crunch_unpack_level : Option Bytes → Nat → Nat → UnpackResult
  unity_crunch_unpack_level : Option Bytes → Nat → Nat → UnpackResult
  surface : Codec → Option Bytes → Int → Int → List Int → Nat → Nat

/-- Contents of the Java array `out` and the trace of external calls so far. -/
structure JState where
  out : Words
  trace : List Event

/-- State at the start of a call: `out` as the caller provides it, no call made. -/
def JState.start (out : Words) : JState := { out := out, trace := [] }

/-- Append one external call to the trace. -/
def JState.emit (s : JState) (e : Event) : JState := { s with trace := s.trace ++ [e] }

/-- Invoke the unpacker a `CrunchUnpackCallable` points to. -/
def CrunchUnpackCallable.call (env : Env) (callable : CrunchUnpackCallable)
    (data : Option Bytes) (dataSize level : Nat) : UnpackResult :=
  match callable with
  | .crunch_unpack_level => env.crunch_unpack_level data dataSize level
  | .unity_crunch_unpack_level => env.unity_crunch_unpack_level data dataSize level

/-- JNI `GetArrayLength(data)`: a `jsize`, the number of bytes of the array. -/
def GetArrayLength (data : Bytes) (s : JState) : Int × JState :=
  ((data.length : Int), s.emit (.GetArrayLength .data))

/-- JNI `ReleasePrimitiveArrayCritical(out, outPtr, mode)`: the view's contents
reach the array unless the view is a copy and the mode is `JNI_ABORT`. -/
def ReleasePrimitiveArrayCritical_out (env : Env) (view : Words) (mode : Int)
    (s : JState) : JState :=
  { out := if mode = JNI_ABORT ∧ env.outIsCopy = true then s.out else view
    trace := s.trace ++ [.ReleasePrimitiveArrayCritical .out mode] }

/-- Source lines 12-18: pin `data`, then pin `out`, whatever the first pin gave. -/
def get_array_critical (env : Env) (data : Bytes) (s : JState) :
    Option Bytes × Option Words × JState :=
  let dataPtr : Option Bytes := if env.pinData then some data else none
  let s := s.emit (.GetPrimitiveArrayCritical .data dataPtr.isSome)
  let outPtr : Option Words := if env.pinOut then some s.out else none
  let s := s.emit (.GetPrimitiveArrayCritical .out outPtr.isSome)
  (dataPtr, outPtr, s)

/-- Source lines 20-30: release `out` with `releaseOutMode` when its pointer is
non-null, then `data` with `JNI_ABORT` when its pointer is non-null. -/
def release_array_critical (env : Env) (dataPtr : Option Bytes) (outPtr : Option Words)
    (releaseOutMode : Int) (s : JState) : JState :=
  let s := match outPtr with
    | some view => ReleasePrimitiveArrayCritical_out env view releaseOutMode s
    | none => s
  match dataPtr with
  | some _ => s.emit (.ReleasePrimitiveArrayCritical .data JNI_ABORT)
  | none => s

/-- Source lines 32-43: when either pointer is null, release what was pinned with
`JNI_ABORT`, look up `OutOfMemoryError`, throw it, and report `false`. -/
def check_array (env : Env) (dataPtr : Option Bytes) (outPtr : Option Words)
    (s : JState) : Bool × JState :=
  if dataPtr.isNone || outPtr.isNone then
    let s := release_array_critical env dataPtr outPtr JNI_ABORT s
    let s := s.emit (.FindClass "java/lang/OutOfMemoryError")
    let s := s.emit (.ThrowNew "Failed to get critical array access.")
    (false, s)
  else
    (true, s)

/-- Modelled from the spec: the block codecs `decode_bc1` … `decode_eacrg_signed`
of `lib/bcn.h`, `lib/pvrtc.h`, `lib/etc.h`, `lib/atc.h` and `lib/astc.h`, which
are missing.  Per the spec each is a pure function from the compressed bytes,
the dimensions and the format parameters to an RGBA8888 surface, and it writes
exactly `width * height` pixels, row-major and unpadded, at the start of the
output; the rest of the output memory is not touched.  The call is recorded in
the trace with every argument it receives. -/
def blockDecode (env : Env) (c : Codec) (input : Option Bytes) (w h : Int)
    (params : List Int) (image : Option Words) (s : JState) : Option Words × JState :=
  let s := s.emit (.decode c input w h params image)
  (image.map (fun view =>
      (List.range (w * h).toNat).map (env.surface c input w h params)
        ++ view.drop (w * h).toNat), s)

/-- Source lines 281-293: select the unpacker by `useUnityCrunch`, call it for
level `0` with `dataSize` converted to `uint32_t`; on failure `delete[]` the
buffer left in `*ret` when it is non-null.  Returns the `bool` result and the
final `*ret`, `*retSizePtr`. -/
def do_crunch_unpack (env : Env) (dataPtr : Option Bytes) (dataSize : Int)
    (useUnityCrunch : Bool) (s : JState) : Bool × Option Bytes × Nat × JState :=
  let callable : CrunchUnpackCallable :=
    if useUnityCrunch then .unity_crunch_unpack_level else .crunch_unpack_level
  let size : Nat := (dataSize % 4294967296).toNat
  let r := callable.call env dataPtr size 0
  let s := s.emit (.unpack callable dataPtr size 0)
  if !r.ok then
    let s := match r.ret with
      | some p => s.emit (.deleteArr p)
      | none => s
    (false, r.ret, r.retSize, s)
  else
    (true, r.ret, r.retSize, s)

/-- Source lines 45-56: `decodeDXT1`, bound to `decode_bc1`. -/
def Java_io_github_deficuet_unitykt_extension_TextureDecoder_decodeDXT1 (env : Env) (data : Bytes) (w h : Int)
    (s : JState) : Int × JState :=
  let (dataPtr, outPtr, s) := get_array_critical env data s
  let chk := check_array env dataPtr outPtr s
  if !chk.1 then
    (0, chk.2)
  else
    let (outPtr, s) := blockDecode env .decode_bc1 dataPtr w h [] outPtr chk.2
    let s := release_array_critical env dataPtr outPtr 0 s
    (1, s)

/-- Source lines 58-69: `decodeDXT5`, bound to `decode_bc3`. -/
def Java_io_github_deficuet_unitykt_extension_TextureDecoder_decodeDXT5 (env : Env) (data : Bytes) (w h : Int)
    (s : JState) : Int × JState :=
  let (dataPtr, outPtr, s) := get_array_critical env data s
  let chk := check_array env dataPtr outPtr s
  if !chk.1 then
    (0, chk.2)
  else
    let (outPtr, s) := blockDecode env .decode_bc3 dataPtr w h [] outPtr chk.2
    let s := release_array_critical env dataPtr outPtr 0 s
    (1, s)

/-- Source lines 71-82: `decodeBC4`, bound to `decode_bc4`. -/
def Java_io_github_deficuet_unitykt_extension_TextureDecoder_decodeBC4 (env : Env) (data : Bytes) (w h : Int)
    (s : JState) : Int × JState :=
  let (dataPtr, outPtr, s) := get_array_critical env data s
  let chk := check_array env dataPtr outPtr s
  if !chk.1 then
    (0, chk.2)
  else
    let (outPtr, s) := blockDecode env .decode_bc4 dataPtr w h [] outPtr chk.2
    let s := release_array_critical env dataPtr outPtr 0 s
    (1, s)

/-- Source lines 84-95: `decodeBC5`, bound to `decode_bc5`. -/
def Java_io_github_deficuet_unitykt_extension_TextureDecoder_decodeBC5 (env : Env) (data : Bytes) (w h : Int)
    (s : JState) : Int × JState :=
  let (dataPtr, outPtr, s) := get_array_critical env data s
  let chk := check_array env dataPtr outPtr s
  if !chk.1 then
    (0, chk.2)
  else
    let (outPtr, s) := blockDecode env .decode_bc5 dataPtr w h [] outPtr chk.2
    let s := release_array_critical env dataPtr outPtr 0 s
    (1, s)

/-- Source lines 97-108: `decodeBC6`, bound to `decode_bc6`. -/
def Java_io_github_deficuet_unitykt_extension_TextureDecoder_decodeBC6 (env : Env) (data : Bytes) (w h : Int)
    (s : JState) : Int × JState :=
  let (dataPtr, outPtr, s) := get_array_critical env data s
  let chk := check_array env dataPtr outPtr s
  if !chk.1 then
    (0, chk.2)
  else
    let (outPtr, s) := blockDecode env .decode_bc6 dataPtr w h [] outPtr chk.2
    let s := release_array_critical env dataPtr outPtr 0 s
    (1, s)

/-- Source lines 110-121: `decodeBC7`, bound to `decode_bc7`. -/
def Java_io_github_deficuet_unitykt_extension_TextureDecoder_decodeBC7 (env : Env) (data : Bytes) (w h : Int)
    (s : JState) : Int × JState :=
  let (dataPtr, outPtr, s) := get_array_critical env data s
  let chk := check_array env dataPtr outPtr s
  if !chk.1 then
    (0, chk.2)
  else
    let (outPtr, s) := blockDecode env .decode_bc7 dataPtr w h [] outPtr chk.2
    let s := release_array_critical env dataPtr outPtr 0 s
    (1, s)

/-- Source lines 123-134: `decodePVRTC`, bound to `decode_pvrtc`.  The codec's last argument is `is2bpp ? 1 : 0`. -/
def Java_io_github_deficuet_unitykt_extension_TextureDecoder_decodePVRTC (env : Env) (data : Bytes) (w h : Int) (is2bpp : Bool)
    (s : JState) : Int × JState :=
  let (dataPtr, outPtr, s) := get_array_critical env data s
  let chk := check_array env dataPtr outPtr s
  if !chk.1 then
    (0, chk.2)
  else
    let (outPtr, s) := blockDecode env .decode_pvrtc dataPtr w h [if is2bpp then 1 else 0] outPtr chk.2
    let s := release_array_critical env dataPtr outPtr 0 s
    (1, s)

/-- Source lines 136-147: `decodeETC1`, bound to `decode_etc1`. -/
def Java_io_github_deficuet_unitykt_extension_TextureDecoder_decodeETC1 (env : Env) (data : Bytes) (w h : Int)
    (s : JState) : Int × JState :=
  let (dataPtr, outPtr, s) := get_array_critical env data s
  let chk := check_array env dataPtr outPtr s
  if !chk.1 then
    (0, chk.2)
  else
    let (outPtr, s) := blockDecode env .decode_etc1 dataPtr w h [] outPtr chk.2
    let s := release_array_critical env dataPtr outPtr 0 s
    (1, s)

/-- Source lines 149-160: `decodeETC2`, bound to `decode_etc2`. -/
def Java_io_github_deficuet_unitykt_extension_TextureDecoder_decodeETC2 (env : Env) (data : Bytes) (w h : Int)
    (s : JState) : Int × JState :=
  let (dataPtr, outPtr, s) := get_array_critical env data s
  let chk := check_array env dataPtr outPtr s
  if !chk.1 then
    (0, chk.2)
  else
    let (outPtr, s) := blockDecode env .decode_etc2 dataPtr w h [] outPtr chk.2
    let s := release_array_critical env dataPtr outPtr 0 s
    (1, s)

/-- Source lines 162-173: `decodeETC2A1`, bound to `decode_etc2a1`. -/
def Java_io_github_deficuet_unitykt_extension_TextureDecoder_decodeETC2A1 (env : Env) (data : Bytes) (w h : Int)
    (s : JState) : Int × JState :=
  let (dataPtr, outPtr, s) := get_array_critical env data s
  let chk := check_array env dataPtr outPtr s
  if !chk.1 then
    (0, chk.2)
  else
    let (outPtr, s) := blockDecode env .decode_etc2a1 dataPtr w h [] outPtr chk.2
    let s := release_array_critical env dataPtr outPtr 0 s
    (1, s)

/-- Source lines 175-186: `decodeETC2A8`, bound to `decode_etc2a8`. -/
def Java_io_github_deficuet_unitykt_extension_TextureDecoder_decodeETC2A8 (env : Env) (data : Bytes) (w h : Int)
    (s : JState) : Int × JState :=
  let (dataPtr, outPtr, s) := get_array_critical env data s
  let chk := check_array env dataPtr outPtr s
  if !chk.1 then
    (0, chk.2)
  else
    let (outPtr, s) := blockDecode env .decode_etc2a8 dataPtr w h [] outPtr chk.2
    let s := release_array_critical env dataPtr outPtr 0 s
    (1, s)

/-- Source lines 188-199: `decodeATCRGB4`, bound to `decode_atc_rgb4`. -/
def Java_io_github_deficuet_unitykt_extension_TextureDecoder_decodeATCRGB4 (env : Env) (data : Bytes) (w h : Int)
    (s : JState) : Int × JState :=
  let (dataPtr, outPtr, s) := get_array_critical env data s
  let chk := check_array env dataPtr outPtr s
  if !chk.1 then
    (0, chk.2)
  else
    let (outPtr, s) := blockDecode env .decode_atc_rgb4 dataPtr w h [] outPtr chk.2
    let s := release_array_critical env dataPtr outPtr 0 s
    (1, s)

/-- Source lines 201-212: `decodeATCRGBA8`, bound to `decode_atc_rgba8`. -/
def Java_io_github_deficuet_unitykt_extension_TextureDecoder_decodeATCRGBA8 (env : Env) (data : Bytes) (w h : Int)
    (s : JState) : Int × JState :=
  let (dataPtr, outPtr, s) := get_array_critical env data s
  let chk := check_array env dataPtr outPtr s
  if !chk.1 then
    (0, chk.2)
  else
    let (outPtr, s) := blockDecode env .decode_atc_rgba8 dataPtr w h [] outPtr chk.2
    let s := release_array_critical env dataPtr outPtr 0 s
    (1, s)

/-- Source lines 214-225: `decodeASTC`, bound to `decode_astc`.  The codec receives `blockSize` as block width and as block height. -/
def Java_io_github_deficuet_unitykt_extension_TextureDecoder_decodeASTC (env : Env) (data : Bytes) (w h : Int) (blockSize : Int)
    (s : JState) : Int × JState :=
  let (dataPtr, outPtr, s) := get_array_critical env data s
  let chk := check_array env dataPtr outPtr s
  if !chk.1 then
    (0, chk.2)
  else
    let (outPtr, s) := blockDecode env .decode_astc dataPtr w h [blockSize, blockSize] outPtr chk.2
    let s := release_array_critical env dataPtr outPtr 0 s
    (1, s)

/-- Source lines 227-238: `decodeEACR`, bound to `decode_eacr`. -/
def Java_io_github_deficuet_unitykt_extension_TextureDecoder_decodeEACR (env : Env) (data : Bytes) (w h : Int)
    (s : JState) : Int × JState :=
  let (dataPtr, outPtr, s) := get_array_critical env data s
  let chk := check_array env dataPtr outPtr s
  if !chk.1 then
    (0, chk.2)
  else
    let (outPtr, s) := blockDecode env .decode_eacr dataPtr w h [] outPtr chk.2
    let s := release_array_critical env dataPtr outPtr 0 s
    (1, s)

/-- Source lines 240-251: `decodeEACRSigned`, bound to `decode_eacr_signed`. -/
def Java_io_github_deficuet_unitykt_extension_TextureDecoder_decodeEACRSigned (env : Env) (data : Bytes) (w h : Int)
    (s : JState) : Int × JState :=
  let (dataPtr, outPtr, s) := get_array_critical env data s
  let chk := check_array env dataPtr outPtr s
  if !chk.1 then
    (0, chk.2)
  else
    let (outPtr, s) := blockDecode env .decode_eacr_signed dataPtr w h [] outPtr chk.2
    let s := release_array_critical env dataPtr outPtr 0 s
    (1, s)

/-- Source lines 253-264: `decodeEACRG`, bound to `decode_eacrg`. -/
def Java_io_github_deficuet_unitykt_extension_TextureDecoder_decodeEACRG (env : Env) (data : Bytes) (w h : Int)
    (s : JState) : Int × JState :=
  let (dataPtr, outPtr, s) := get_array_critical env data s
  let chk := check_array env dataPtr outPtr s
  if !chk.1 then
    (0, chk.2)
  else
    let (outPtr, s) := blockDecode env .decode_eacrg dataPtr w h [] outPtr chk.2
    let s := release_array_critical env dataPtr outPtr 0 s
    (1, s)

/-- Source lines 266-277: `decodeEACRGSigned`, bound to `decode_eacrg_signed`. -/
def Java_io_github_deficuet_unitykt_extension_TextureDecoder_decodeEACRGSigned (env : Env) (data : Bytes) (w h : Int)
    (s : JState) : Int × JState :=
  let (dataPtr, outPtr, s) := get_array_critical env data s
  let chk := check_array env dataPtr outPtr s
  if !chk.1 then
    (0, chk.2)
  else
    let (outPtr, s) := blockDecode env .decode_eacrg_signed dataPtr w h [] outPtr chk.2
    let s := release_array_critical env dataPtr outPtr 0 s
    (1, s)

/-- Source lines 295-312: `decodeCrunchedDXT1`, unpacks the container and decodes the
unpacked buffer with `decode_bc1`. -/
def Java_io_github_deficuet_unitykt_extension_TextureDecoder_decodeCrunchedDXT1 (env : Env) (data : Bytes) (w h : Int)
    (useUnityCrunch : Bool) (s : JState) : Int × JState :=
  let (dataSize, s) := GetArrayLength data s
  let (dataPtr, outPtr, s) := get_array_critical env data s
  let chk := check_array env dataPtr outPtr s
  if !chk.1 then
    (0, chk.2)
  else
    let (unpacked, unpackedData, _unpackedSize, s) :=
      do_crunch_unpack env dataPtr dataSize useUnityCrunch chk.2
    if !unpacked then
      let s := release_array_critical env dataPtr outPtr JNI_ABORT s
      (0, s)
    else
      let (outPtr, s) := blockDecode env .decode_bc1 unpackedData w h [] outPtr s
      let s := release_array_critical env dataPtr outPtr 0 s
      (1, s)

/-- Source lines 314-331: `decodeCrunchedDXT5`, unpacks the container and decodes the
unpacked buffer with `decode_bc3`. -/
def Java_io_github_deficuet_unitykt_extension_TextureDecoder_decodeCrunchedDXT5 (env : Env) (data : Bytes) (w h : Int)
    (useUnityCrunch : Bool) (s : JState) : Int × JState :=
  let (dataSize, s) := GetArrayLength data s
  let (dataPtr, outPtr, s) := get_array_critical env data s
  let chk := check_array env dataPtr outPtr s
  if !chk.1 then
    (0, chk.2)
  else
    let (unpacked, unpackedData, _unpackedSize, s) :=
      do_crunch_unpack env dataPtr dataSize useUnityCrunch chk.2
    if !unpacked then
      let s := release_array_critical env dataPtr outPtr JNI_ABORT s
      (0, s)
    else
      let (outPtr, s) := blockDecode env .decode_bc3 unpackedData w h [] outPtr s
      let s := release_array_critical env dataPtr outPtr 0 s
      (1, s)

/-- Source lines 333-350: `decodeCrunchedETC1`, unpacks the container and decodes the
unpacked buffer with `decode_etc1`. -/
def Java_io_github_deficuet_unitykt_extension_TextureDecoder_decodeCrunchedETC1 (env : Env) (data : Bytes) (w h : Int)
    (useUnityCrunch : Bool) (s : JState) : Int × JState :=
  let (dataSize, s) := GetArrayLength data s
  let (dataPtr, outPtr, s) := get_array_critical env data s
  let chk := check_array env dataPtr outPtr s
  if !chk.1 then
    (0, chk.2)
  else
    let (unpacked, unpackedData, _unpackedSize, s) :=
      do_crunch_unpack env dataPtr dataSize useUnityCrunch chk.2
    if !unpacked then
      let s := release_array_critical env dataPtr outPtr JNI_ABORT s
      (0, s)
    else
      let (outPtr, s) := blockDecode env .decode_etc1 unpackedData w h [] outPtr s
      let s := release_array_critical env dataPtr outPtr 0 s
      (1, s)

/-- Source lines 352-369: `decodeCrunchedETC2A8`, unpacks the container and decodes the
unpacked buffer with `decode_etc2a8`. -/
def Java_io_github_deficuet_unitykt_extension_TextureDecoder_decodeCrunchedETC2A8 (env : Env) (data : Bytes) (w h : Int)
    (useUnityCrunch : Bool) (s : JState) : Int × JState :=
  let (dataSize, s) := GetArrayLength data s
  let (dataPtr, outPtr, s) := get_array_critical env data s
  let chk := check_array env dataPtr outPtr s
  if !chk.1 then
    (0, chk.2)
  else
    let (unpacked, unpackedData, _unpackedSize, s) :=
      do_crunch_unpack env dataPtr dataSize useUnityCrunch chk.2
    if !unpacked then
      let s := release_array_critical env dataPtr outPtr JNI_ABORT s
      (0, s)
    else
      let (outPtr, s) := blockDecode env .decode_etc2a8 unpackedData w h [] outPtr s
      let s := release_array_critical env dataPtr outPtr 0 s
      (1, s)

/-- The 22 exported entry points. -/
inductive EntryPoint
  | decodeDXT1
  | decodeDXT5
  | decodeBC4
  | decodeBC5
  | decodeBC6
  | decodeBC7
  | decodePVRTC
  | decodeETC1
  | decodeETC2
  | decodeETC2A1
  | decodeETC2A8
  | decodeATCRGB4
  | decodeATCRGBA8
  | decodeASTC
  | decodeEACR
  | decodeEACRSigned
  | decodeEACRG
  | decodeEACRGSigned
  | decodeCrunchedDXT1
  | decodeCrunchedDXT5
  | decodeCrunchedETC1
  | decodeCrunchedETC2A8
  deriving DecidableEq

/-- Arguments of a call: the contents of `data`, the dimensions, and the extra
parameter of the entry points that have one (`flag` is `is2bpp` for PVRTC and
`useUnityCrunch` for the crunch entry points; `blockSize` is read by ASTC). -/
structure Args where
  data : Bytes
  w : Int
  h : Int
  flag : Bool
  blockSize : Int

/-- Outcome of a call: the returned `jint`, the final contents of `out`, and the
external calls made, in order. -/
structure Outcome where
  status : Int
  out : Words
  trace : List Event

/-- Call an entry point on a fresh state whose `out` array holds `out`. -/
def EntryPoint.invoke (e : EntryPoint) (env : Env) (a : Args) (out : Words) : Int × JState :=
  match e with
  | .decodeDXT1 =>
    Java_io_github_deficuet_unitykt_extension_TextureDecoder_decodeDXT1 env a.data a.w a.h (JState.start out)
  | .decodeDXT5 =>
    Java_io_github_deficuet_unitykt_extension_TextureDecoder_decodeDXT5 env a.data a.w a.h (JState.start out)
  | .decodeBC4 =>
    Java_io_github_deficuet_unitykt_extension_TextureDecoder_decodeBC4 env a.data a.w a.h (JState.start out)
  | .decodeBC5 =>
    Java_io_github_deficuet_unitykt_extension_TextureDecoder_decodeBC5 env a.data a.w a.h (JState.start out)
  | .decodeBC6 =>
    Java_io_github_deficuet_unitykt_extension_TextureDecoder_decodeBC6 env a.data a.w a.h (JState.start out)
  | .decodeBC7 =>
    Java_io_github_deficuet_unitykt_extension_TextureDecoder_decodeBC7 env a.data a.w a.h (JState.start out)
  | .decodePVRTC =>
    Java_io_github_deficuet_unitykt_extension_TextureDecoder_decodePVRTC env a.data a.w a.h a.flag (JState.start out)
  | .decodeETC1 =>
    Java_io_github_deficuet_unitykt_extension_TextureDecoder_decodeETC1 env a.data a.w a.h (JState.start out)
  | .decodeETC2 =>
    Java_io_github_deficuet_unitykt_extension_TextureDecoder_decodeETC2 env a.data a.w a.h (JState.start out)
  | .decodeETC2A1 =>
    Java_io_github_deficuet_unitykt_extension_TextureDecoder_decodeETC2A1 env a.data a.w a.h (JState.start out)
  | .decodeETC2A8 =>
    Java_io_github_deficuet_unitykt_extension_TextureDecoder_decodeETC2A8 env a.data a.w a.h (JState.start out)
  | .decodeATCRGB4 =>
    Java_io_github_deficuet_unitykt_extension_TextureDecoder_decodeATCRGB4 env a.data a.w a.h (JState.start out)
  | .decodeATCRGBA8 =>
    Java_io_github_deficuet_unitykt_extension_TextureDecoder_decodeATCRGBA8 env a.data a.w a.h (JState.start out)
  | .decodeASTC =>
    Java_io_github_deficuet_unitykt_extension_TextureDecoder_decodeASTC env a.data a.w a.h a.blockSize (JState.start out)
  | .decodeEACR =>
    Java_io_github_deficuet_unitykt_extension_TextureDecoder_decodeEACR env a.data a.w a.h (JState.start out)
  | .decodeEACRSigned =>
    Java_io_github_deficuet_unitykt_extension_TextureDecoder_decodeEACRSigned env a.data a.w a.h (JState.start out)
  | .decodeEACRG =>
    Java_io_github_deficuet_unitykt_extension_TextureDecoder_decodeEACRG env a.data a.w a.h (JState.start out)
  | .decodeEACRGSigned =>
    Java_io_github_deficuet_unitykt_extension_TextureDecoder_decodeEACRGSigned env a.data a.w a.h (JState.start out)
  | .decodeCrunchedDXT1 =>
    Java_io_github_deficuet_unitykt_extension_TextureDecoder_decodeCrunchedDXT1 env a.data a.w a.h a.flag (JState.start out)
  | .decodeCrunchedDXT5 =>
    Java_io_github_deficuet_unitykt_extension_TextureDecoder_decodeCrunchedDXT5 env a.data a.w a.h a.flag (JState.start out)
  | .decodeCrunchedETC1 =>
    Java_io_github_deficuet_unitykt_extension_TextureDecoder_decodeCrunchedETC1 env a.data a.w a.h a.flag (JState.start out)
  | .decodeCrunchedETC2A8 =>
    Java_io_github_deficuet_unitykt_extension_TextureDecoder_decodeCrunchedETC2A8 env a.data a.w a.h a.flag (JState.start out)

/-- Run an entry point and collect what the caller can observe. -/
def EntryPoint.run (e : EntryPoint) (env : Env) (a : Args) (out : Words) : Outcome :=
  let r := e.invoke env a out
  { status := r.1, out := r.2.out, trace := r.2.trace }

/-- The four entry points that unpack a crunch container first. -/
def EntryPoint.isCrunch : EntryPoint → Bool
  | .decodeCrunchedDXT1 | .decodeCrunchedDXT5 | .decodeCrunchedETC1 | .decodeCrunchedETC2A8 => true
  | _ => false

/-! ## Reading a trace -/

/-- Number of successful pins of array `x` in a trace. -/
def acquired (x : JArray) : List Event → Nat
  | [] => 0
  | .GetPrimitiveArrayCritical y true :: t => (if y = x then 1 else 0) + acquired x t
  | _ :: t => acquired x t

/-- The modes with which array `x` is released in a trace, in order. -/
def releaseModes (x : JArray) : List Event → List Int
  | [] => []
  | .ReleasePrimitiveArrayCritical y m :: t =>
      if y = x then m :: releaseModes x t else releaseModes x t
  | _ :: t => releaseModes x t

/-- The block codec calls of a trace, in order. -/
def decodes : List Event → List Event
  | [] => []
  | .decode c i w h p o :: t => .decode c i w h p o :: decodes t
  | _ :: t => decodes t

/-- The unpacker calls of a trace, in order. -/
def unpacks : List Event → List Event
  | [] => []
  | .unpack c d n l :: t => .unpack c d n l :: unpacks t
  | _ :: t => unpacks t

/-- The buffers passed to `delete[]` in a trace, in order. -/
def frees : List Event → List Bytes
  | [] => []
  | .deleteArr p :: t => p :: frees t
  | _ :: t => frees t

/-- The exception-raising calls (`FindClass`, `ThrowNew`) of a trace, in order. -/
def raised : List Event → List Event
  | [] => []
  | .FindClass n :: t => .FindClass n :: raised t
  | .ThrowNew m :: t => .ThrowNew m :: raised t
  | _ :: t => raised t

/-- The pin attempts of a trace, in order, as the array each one targets. -/
def pinAttempts : List Event → List JArray
  | [] => []
  | .GetPrimitiveArrayCritical y _ :: t => y :: pinAttempts t
  | _ :: t => pinAttempts t

/-- Scan a trace with the set of views currently held (`hd` for `data`, `ho`
for `out`): a pin must target an array that is not held, a release must target
an array that is held, and at the end nothing is held. -/
def wellPaired (hd ho : Bool) : List Event → Bool
  | [] => !hd && !ho
  | .GetPrimitiveArrayCritical .data ok :: t => !hd && wellPaired ok ho t
  | .GetPrimitiveArrayCritical .out ok :: t => !ho && wellPaired hd ok t
  | .ReleasePrimitiveArrayCritical .data _ :: t => hd && wellPaired false ho t
  | .ReleasePrimitiveArrayCritical .out _ :: t => ho && wellPaired hd false t
  | _ :: t => wellPaired hd ho t

/-- Scan a trace with the number of views currently held: every call into the
Java runtime that is not a pin or a release (`GetArrayLength`, `FindClass`,
`ThrowNew`) must happen while no view is held.  Calls into the native
libraries and `delete[]` are not calls into the runtime. -/
def runtimeQuiet (held : Nat) : List Event → Bool
  | [] => true
  | .GetPrimitiveArrayCritical _ ok :: t => runtimeQuiet (if ok then held + 1 else held) t
  | .ReleasePrimitiveArrayCritical _ _ :: t => runtimeQuiet (held - 1) t
  | .GetArrayLength _ :: t => held == 0 && runtimeQuiet held t
  | .FindClass _ :: t => held == 0 && runtimeQuiet held t
  | .ThrowNew _ :: t => held == 0 && runtimeQuiet held t
  | _ :: t => runtimeQuiet held t

/-- Whether some pin attempt of the trace comes after some release. -/
def pinAfterRelease (seenRelease : Bool) : List Event → Bool
  | [] => false
  | .GetPrimitiveArrayCritical _ _ :: t => seenRelease || pinAfterRelease seenRelease t
  | .ReleasePrimitiveArrayCritical _ _ :: t => pinAfterRelease true t
  | _ :: t => pinAfterRelease seenRelease t

/-- Whether some `GetArrayLength` of the trace comes after some pin attempt. -/
def lengthQueryAfterPin (seenPin : Bool) : List Event → Bool
  | [] => false
  | .GetPrimitiveArrayCritical _ _ :: t => lengthQueryAfterPin true t
  | .GetArrayLength _ :: t => seenPin || lengthQueryAfterPin seenPin t
  | _ :: t => lengthQueryAfterPin seenPin t

/-- The output pointers handed to the block codec calls of a trace, in order,
each as the memory it points to at the call. -/
def decodeTargets : List Event → List (Option Words)
  | [] => []
  | .decode _ _ _ _ _ o :: t => o :: decodeTargets t
  | _ :: t => decodeTargets t

/-! ## The table of the specification -/

/-- The block codec the specification binds to each entry point. -/
def EntryPoint.boundCodec : EntryPoint → Codec
  | .decodeDXT1 => .decode_bc1
  | .decodeDXT5 => .decode_bc3
  | .decodeBC4 => .decode_bc4
  | .decodeBC5 => .decode_bc5
  | .decodeBC6 => .decode_bc6
  | .decodeBC7 => .decode_bc7
  | .decodePVRTC => .decode_pvrtc
  | .decodeETC1 => .decode_etc1
  | .decodeETC2 => .decode_etc2
  | .decodeETC2A1 => .decode_etc2a1
  | .decodeETC2A8 => .decode_etc2a8
  | .decodeATCRGB4 => .decode_atc_rgb4
  | .decodeATCRGBA8 => .decode_atc_rgba8
  | .decodeASTC => .decode_astc
  | .decodeEACR => .decode_eacr
  | .decodeEACRSigned => .decode_eacr_signed
  | .decodeEACRG => .decode_eacrg
  | .decodeEACRGSigned => .decode_eacrg_signed
  | .decodeCrunchedDXT1 => .decode_bc1
  | .decodeCrunchedDXT5 => .decode_bc3
  | .decodeCrunchedETC1 => .decode_etc1
  | .decodeCrunchedETC2A8 => .decode_etc2a8

/-- The format parameters the specification gives each codec call after the
dimensions: PVRTC gets `1` for a true flag and `0` otherwise, ASTC gets the
block size twice, every other codec gets none. -/
def EntryPoint.boundParams (e : EntryPoint) (a : Args) : List Int :=
  match e with
  | .decodePVRTC => [if a.flag then 1 else 0]
  | .decodeASTC => [a.blockSize, a.blockSize]
  | _ => []

/-- The unpacker the dialect flag stands for: `true` is the Unity variant. -/
def dialectUnpacker (useUnityCrunch : Bool) : CrunchUnpackCallable :=
  if useUnityCrunch then .unity_crunch_unpack_level else .crunch_unpack_level

/-- The result of the unpacker call a crunch entry point makes for `a`: the
unpacker of the dialect, on the pinned input, with the array length as
`uint32_t`, for level `0`. -/
def Env.selectedUnpack (env : Env) (a : Args) : UnpackResult :=
  (dialectUnpacker a.flag).call env (some a.data)
    (((a.data.length : Int) % 4294967296).toNat) 0

/-- The bytes a successful call hands to its block codec: the pinned input for
a plain entry point, the unpacked buffer for a crunch entry point. -/
def EntryPoint.codecInput (e : EntryPoint) (env : Env) (a : Args) : Option Bytes :=
  if e.isCrunch then (env.selectedUnpack a).ret else some a.data

/-- The contents block codec `c` leaves in an output that held `out`: the
decoded surface over the first `w * h` words, `out` after them. -/
def decodedOut (env : Env) (c : Codec) (input : Option Bytes) (w h : Int)
    (params : List Int) (out : Words) : Words :=
  (List.range (w * h).toNat).map (env.surface c input w h params) ++ out.drop (w * h).toNat

/-- A trace with its unpacker calls removed. -/
def withoutUnpacks : List Event → List Event
  | [] => []
  | .unpack _ _ _ _ :: t => withoutUnpacks t
  | e :: t => e :: withoutUnpacks t

/-- Closed form of a call, by outcome of the pins and of the unpacker; used to
reason about all 22 entry points at once (see `run_eq_expected`). -/
def EntryPoint.expected (e : EntryPoint) (env : Env) (a : Args) (out : Words) : Outcome :=
  let pre : List Event := if e.isCrunch then [.GetArrayLength .data] else []
  let pins : List Event :=
    [.GetPrimitiveArrayCritical .data env.pinData, .GetPrimitiveArrayCritical .out env.pinOut]
  if !(env.pinData && env.pinOut) then
    { status := 0
      out := out
      trace := pre ++ pins
        ++ (if env.pinOut then [.ReleasePrimitiveArrayCritical .out JNI_ABORT] else [])
        ++ (if env.pinData then [.ReleasePrimitiveArrayCritical .data JNI_ABORT] else [])
        ++ [.FindClass "java/lang/OutOfMemoryError",
            .ThrowNew "Failed to get critical array access."] }
  else if e.isCrunch then
    let r := env.selectedUnpack a
    let u : Event := .unpack (dialectUnpacker a.flag) (some a.data)
      (((a.data.length : Int) % 4294967296).toNat) 0
    if !r.ok then
      { status := 0
        out := out
        trace := pre ++ pins ++ [u] ++ (r.ret.toList.map Event.deleteArr)
          ++ [.ReleasePrimitiveArrayCritical .out JNI_ABORT,
              .ReleasePrimitiveArrayCritical .data JNI_ABORT] }
    else
      { status := 1
        out := decodedOut env e.boundCodec r.ret a.w a.h [] out
        trace := pre ++ pins ++ [u, .decode e.boundCodec r.ret a.w a.h [] (some out),
              .ReleasePrimitiveArrayCritical .out 0,
              .ReleasePrimitiveArrayCritical .data JNI_ABORT] }
  else
    { status := 1
      out := decodedOut env e.boundCodec (some a.data) a.w a.h (e.boundParams a) out
      trace := pins ++ [.decode e.boundCodec (some a.data) a.w a.h (e.boundParams a) (some out),
              .ReleasePrimitiveArrayCritical .out 0,
              .ReleasePrimitiveArrayCritical .data JNI_ABORT] }

/-! ## Concrete worlds -/

/-- A toy standard-dialect unpacker: a container that starts with byte `1`
unpacks to the bytes after it; a container that starts with byte `9` fails
after allocating; anything else fails without allocating. -/
def toyCrunch (data : Option Bytes) (_size _level : Nat) : UnpackResult :=
  match data with
  | some (1 :: rest) => { ok := true, ret := some rest, retSize := rest.length }
  | some (9 :: _) => { ok := false, ret := some [0, 0], retSize := 0 }
  | _ => { ok := false, ret := none, retSize := 0 }

/-- A toy Unity-dialect unpacker: as `toyCrunch`, with leading byte `2`. -/
def toyUnityCrunch (data : Option Bytes) (_size _level : Nat) : UnpackResult :=
  match data with
  | some (2 :: rest) => { ok := true, ret := some rest, retSize := rest.length }
  | some (9 :: _) => { ok := false, ret := some [0, 0], retSize := 0 }
  | _ => { ok := false, ret := none, retSize := 0 }

/-- A toy codec surface: pixel `i` is `i` plus the first input byte. -/
def toySurface (_c : Codec) (input : Option Bytes) (_w _h : Int) (_params : List Int)
    (i : Nat) : Nat :=
  i + (input.getD []).headD 0

/-- A world in which both pins succeed and `out` is pinned as a copy. -/
def worldOk : Env :=
  { pinData := true, pinOut := true, outIsCopy := true
    crunch_unpack_level := toyCrunch
    unity_crunch_unpack_level := toyUnityCrunch
    surface := toySurface }

/-- A world in which `data` cannot be pinned and `out` can. -/
def worldNoData : Env := { worldOk with pinData := false }

/-- A 2x2 request on a standard-dialect container with four raw bytes. -/
def smallArgs : Args := { data := [1, 5, 6, 7, 8], w := 2, h := 2, flag := false, blockSize := 0 }

/-- The same raw bytes wrapped for the Unity dialect. -/
def smallUnityArgs : Args := { smallArgs with data := [2, 5, 6, 7, 8], flag := true }

/-- A 2x2 request on a container whose unpacking fails after allocating. -/
def corruptArgs : Args := { data := [9, 9, 9], w := 2, h := 2, flag := false, blockSize := 0 }

/-- A 16x16 ASTC request with block size 4. -/
def astcArgs : Args :=
  { data := List.replicate 256 3, w := 16, h := 16, flag := false, blockSize := 4 }

/-! ## The entry points in closed form -/

/-- Every entry point, run on any world and any arguments, behaves as its
closed form says. -/
theorem run_eq_expected (e : EntryPoint) (env : Env) (a : Args) (out : Words) :
    e.run env a out = e.expected env a out := by
  rcases env with ⟨pd, po, ic, cu, uu, sf⟩
  rcases a with ⟨data, w, h, flag, bs⟩
  cases e <;> cases pd <;> cases po <;>
    simp [EntryPoint.run, EntryPoint.invoke, EntryPoint.isCrunch, EntryPoint.expected,
      EntryPoint.boundCodec, EntryPoint.boundParams, decodedOut,
      Java_io_github_deficuet_unitykt_extension_TextureDecoder_decodeDXT1,
      Java_io_github_deficuet_unitykt_extension_TextureDecoder_decodeDXT5,
      Java_io_github_deficuet_unitykt_extension_TextureDecoder_decodeBC4,
      Java_io_github_deficuet_unitykt_extension_TextureDecoder_decodeBC5,
      Java_io_github_deficuet_unitykt_extension_TextureDecoder_decodeBC6,
      Java_io_github_deficuet_unitykt_extension_TextureDecoder_decodeBC7,
      Java_io_github_deficuet_unitykt_extension_TextureDecoder_decodePVRTC,
      Java_io_github_deficuet_unitykt_extension_TextureDecoder_decodeETC1,
      Java_io_github_deficuet_unitykt_extension_TextureDecoder_decodeETC2,
      Java_io_github_deficuet_unitykt_extension_TextureDecoder_decodeETC2A1,
      Java_io_github_deficuet_unitykt_extension_TextureDecoder_decodeETC2A8,
      Java_io_github_deficuet_unitykt_extension_TextureDecoder_decodeATCRGB4,
      Java_io_github_deficuet_unitykt_extension_TextureDecoder_decodeATCRGBA8,
      Java_io_github_deficuet_unitykt_extension_TextureDecoder_decodeASTC,
      Java_io_github_deficuet_unitykt_extension_TextureDecoder_decodeEACR,
      Java_io_github_deficuet_unitykt_extension_TextureDecoder_decodeEACRSigned,
      Java_io_github_deficuet_unitykt_extension_TextureDecoder_decodeEACRG,
      Java_io_github_deficuet_unitykt_extension_TextureDecoder_decodeEACRGSigned,
      Java_io_github_deficuet_unitykt_extension_TextureDecoder_decodeCrunchedDXT1,
      Java_io_github_deficuet_unitykt_extension_TextureDecoder_decodeCrunchedDXT5,
      Java_io_github_deficuet_unitykt_extension_TextureDecoder_decodeCrunchedETC1,
      Java_io_github_deficuet_unitykt_extension_TextureDecoder_decodeCrunchedETC2A8,
      GetArrayLength, do_crunch_unpack, Env.selectedUnpack, dialectUnpacker,
      ReleasePrimitiveArrayCritical_out, JNI_ABORT,
      get_array_critical, check_array, blockDecode, release_array_critical, JState.emit,
      JState.start]
  all_goals
    generalize CrunchUnpackCallable.call _ _ _ _ _ = r
    rcases r with ⟨ok, ret, sz⟩
    cases ok <;> cases ret <;> simp

/-- Outcome of a call in which a pin fails. -/
theorem expected_pin_failure (e : EntryPoint) (env : Env) (a : Args) (out : Words)
    (hfail : env.pinData = false ∨ env.pinOut = false) :
    e.expected env a out =
      { status := 0
        out := out
        trace := (if e.isCrunch then [Event.GetArrayLength .data] else [])
          ++ [.GetPrimitiveArrayCritical .data env.pinData,
              .GetPrimitiveArrayCritical .out env.pinOut]
          ++ (if env.pinOut then [.ReleasePrimitiveArrayCritical .out JNI_ABORT] else [])
          ++ (if env.pinData then [.ReleasePrimitiveArrayCritical .data JNI_ABORT] else [])
          ++ [.FindClass "java/lang/OutOfMemoryError",
              .ThrowNew "Failed to get critical array access."] } := by
  rcases hfail with h | h <;> simp [EntryPoint.expected, h]

/-- Outcome of a crunch call in which both pins succeed and the unpacker fails. -/
theorem expected_unpack_failure (e : EntryPoint) (env : Env) (a : Args) (out : Words)
    (hc : e.isCrunch = true) (hd : env.pinData = true) (ho : env.pinOut = true)
    (hu : (env.selectedUnpack a).ok = false) :
    e.expected env a out =
      { status := 0
        out := out
        trace := [.GetArrayLength .data, .GetPrimitiveArrayCritical .data true,
              .GetPrimitiveArrayCritical .out true,
              .unpack (dialectUnpacker a.flag) (some a.data)
                (((a.data.length : Int) % 4294967296).toNat) 0]
          ++ ((env.selectedUnpack a).ret.toList.map Event.deleteArr)
          ++ [.ReleasePrimitiveArrayCritical .out JNI_ABORT,
              .ReleasePrimitiveArrayCritical .data JNI_ABORT] } := by
  simp [EntryPoint.expected, hc, hd, ho, hu]

/-- Outcome of a crunch call in which both pins and the unpacker succeed. -/
theorem expected_crunch_success (e : EntryPoint) (env : Env) (a : Args) (out : Words)
    (hc : e.isCrunch = true) (hd : env.pinData = true) (ho : env.pinOut = true)
    (hu : (env.selectedUnpack a).ok = true) :
    e.expected env a out =
      { status := 1
        out := decodedOut env e.boundCodec (env.selectedUnpack a).ret a.w a.h [] out
        trace := [.GetArrayLength .data, .GetPrimitiveArrayCritical .data true,
              .GetPrimitiveArrayCritical .out true,
              .unpack (dialectUnpacker a.flag) (some a.data)
                (((a.data.length : Int) % 4294967296).toNat) 0,
              .decode e.boundCodec (env.selectedUnpack a).ret a.w a.h [] (some out),
              .ReleasePrimitiveArrayCritical .out 0,
              .ReleasePrimitiveArrayCritical .data JNI_ABORT] } := by
  simp [EntryPoint.expected, hc, hd, ho, hu]

/-- Outcome of a plain call in which both pins succeed. -/
theorem expected_plain_success (e : EntryPoint) (env : Env) (a : Args) (out : Words)
    (hc : e.isCrunch = false) (hd : env.pinData = true) (ho : env.pinOut = true) :
    e.expected env a out =
      { status := 1
        out := decodedOut env e.boundCodec (some a.data) a.w a.h (e.boundParams a) out
        trace := [.GetPrimitiveArrayCritical .data true, .GetPrimitiveArrayCritical .out true,
              .decode e.boundCodec (some a.data) a.w a.h (e.boundParams a) (some out),
              .ReleasePrimitiveArrayCritical .out 0,
              .ReleasePrimitiveArrayCritical .data JNI_ABORT] } := by
  simp [EntryPoint.expected, hc, hd, ho]

/-- A crunch entry point never reads format parameters. -/
theorem boundParams_of_isCrunch (e : EntryPoint) (a : Args) (hc : e.isCrunch = true) :
    e.boundParams a = [] := by
  cases e <;> simp_all [EntryPoint.isCrunch, EntryPoint.boundParams]

/-- For valid dimensions the pixel count is the product of the two naturals. -/
theorem toNat_mul_of_nonneg (w h : Int) (hw : 0 ≤ w) (hh : 0 ≤ h) :
    (w * h).toNat = w.toNat * h.toNat := by
  obtain ⟨a, rfl⟩ := Int.eq_ofNat_of_zero_le hw
  obtain ⟨b, rfl⟩ := Int.eq_ofNat_of_zero_le hh
  exact Int.toNat_ofNat (a * b)

/-- A codec call on a large enough output keeps its length. -/
theorem decodedOut_length (env : Env) (c : Codec) (input : Option Bytes) (w h : Int)
    (params : List Int) (out : Words) (hcap : (w * h).toNat ≤ out.length) :
    (decodedOut env c input w h params out).length = out.length := by
  simp [decodedOut]
  omega

/-- Below the pixel count the output holds the decoded surface. -/
theorem decodedOut_getElem?_lt (env : Env) (c : Codec) (input : Option Bytes) (w h : Int)
    (params : List Int) (out : Words) (i : Nat) (hi : i < (w * h).toNat) :
    (decodedOut env c input w h params out)[i]? = some (env.surface c input w h params i) := by
  unfold decodedOut
  rw [List.getElem?_append_left (by simpa using hi)]
  simp [List.getElem?_range hi]

/-- From the pixel count on the output holds what it held before. -/
theorem decodedOut_getElem?_ge (env : Env) (c : Codec) (input : Option Bytes) (w h : Int)
    (params : List Int) (out : Words) (i : Nat) (hi : (w * h).toNat ≤ i) :
    (decodedOut env c input w h params out)[i]? = out[i]? := by
  unfold decodedOut
  rw [List.getElem?_append_right (by simpa using hi)]
  simp
  congr 1
  omega

/-- The four outcomes a call can have. -/
theorem run_cases (e : EntryPoint) (env : Env) (a : Args) :
    (env.pinData = false ∨ env.pinOut = false) ∨
    (e.isCrunch = true ∧ env.pinData = true ∧ env.pinOut = true ∧
      (env.selectedUnpack a).ok = false) ∨
    (e.isCrunch = true ∧ env.pinData = true ∧ env.pinOut = true ∧
      (env.selectedUnpack a).ok = true) ∨
    (e.isCrunch = false ∧ env.pinData = true ∧ env.pinOut = true) := by
  cases env.pinData <;> cases env.pinOut <;> cases e.isCrunch <;>
    cases (env.selectedUnpack a).ok <;> simp

/-- C1: for each of the 22 entry points, on every world and input, the returned
status is 1 exactly when both pins succeed and, for a crunch entry point, the
selected unpacker reports success; it is 0 exactly in every other case. -/
theorem status_is_one_iff_pins_and_unpack_succeed
    (e : EntryPoint) (env : Env) (a : Args) (out : Words) :
    ((e.run env a out).status = 1 ↔
        (env.pinData = true ∧ env.pinOut = true ∧
          (e.isCrunch = true → (env.selectedUnpack a).ok = true))) ∧
    ((e.run env a out).status = 0 ↔
        ¬ (env.pinData = true ∧ env.pinOut = true ∧
          (e.isCrunch = true → (env.selectedUnpack a).ok = true))) := by
  rw [run_eq_expected]
  unfold EntryPoint.expected
  cases hd : env.pinData <;> cases ho : env.pinOut <;> cases hc : e.isCrunch <;>
    cases hu : (env.selectedUnpack a).ok <;> simp [hu]

/-- C2: when the pin of the input or of the output fails, no codec and no
unpacker is called, `out` is unchanged, each view that was pinned is released
once with `JNI_ABORT` and the other is not released, `OutOfMemoryError` is
looked up and thrown exactly once, and the call returns 0. -/
theorem pin_failure_is_atomic (e : EntryPoint) (env : Env) (a : Args) (out : Words)
    (hfail : env.pinData = false ∨ env.pinOut = false) :
    decodes (e.run env a out).trace = [] ∧
    unpacks (e.run env a out).trace = [] ∧
    (e.run env a out).out = out ∧
    releaseModes .data (e.run env a out).trace = (if env.pinData then [JNI_ABORT] else []) ∧
    releaseModes .out (e.run env a out).trace = (if env.pinOut then [JNI_ABORT] else []) ∧
    raised (e.run env a out).trace =
      [.FindClass "java/lang/OutOfMemoryError",
       .ThrowNew "Failed to get critical array access."] ∧
    (e.run env a out).status = 0 := by
  rw [run_eq_expected, expected_pin_failure e env a out hfail]
  cases hd : env.pinData <;> cases ho : env.pinOut <;> cases hc : e.isCrunch <;>
    simp [decodes, unpacks, releaseModes, raised]

/-- Witness for C2: `decodeDXT1` in a world where the input cannot be pinned. -/
theorem pin_failure_is_atomic_witness :
    decodes (EntryPoint.decodeDXT1.run worldNoData smallArgs [4, 4, 4, 4]).trace = [] ∧
    unpacks (EntryPoint.decodeDXT1.run worldNoData smallArgs [4, 4, 4, 4]).trace = [] ∧
    (EntryPoint.decodeDXT1.run worldNoData smallArgs [4, 4, 4, 4]).out = [4, 4, 4, 4] ∧
    releaseModes .data (EntryPoint.decodeDXT1.run worldNoData smallArgs [4, 4, 4, 4]).trace
      = (if worldNoData.pinData then [JNI_ABORT] else []) ∧
    releaseModes .out (EntryPoint.decodeDXT1.run worldNoData smallArgs [4, 4, 4, 4]).trace
      = (if worldNoData.pinOut then [JNI_ABORT] else []) ∧
    raised (EntryPoint.decodeDXT1.run worldNoData smallArgs [4, 4, 4, 4]).trace =
      [.FindClass "java/lang/OutOfMemoryError",
       .ThrowNew "Failed to get critical array access."] ∧
    (EntryPoint.decodeDXT1.run worldNoData smallArgs [4, 4, 4, 4]).status = 0 :=
  pin_failure_is_atomic .decodeDXT1 worldNoData smallArgs [4, 4, 4, 4] (Or.inl rfl)

/-- C3: when both pins succeed and the selected unpacker of a crunch entry point
reports failure (either dialect), the call returns 0, no block codec is called
and `out` is unchanged, nothing is looked up or thrown, `delete[]` is called
exactly once on the buffer the unpacker left in `*ret` and not at all when
`*ret` is null, and both views are released with `JNI_ABORT`. -/
theorem unpack_failure_is_isolated (e : EntryPoint) (env : Env) (a : Args) (out : Words)
    (hc : e.isCrunch = true) (hd : env.pinData = true) (ho : env.pinOut = true)
    (hu : (env.selectedUnpack a).ok = false) :
    (e.run env a out).status = 0 ∧
    decodes (e.run env a out).trace = [] ∧
    (e.run env a out).out = out ∧
    raised (e.run env a out).trace = [] ∧
    frees (e.run env a out).trace = (env.selectedUnpack a).ret.toList ∧
    releaseModes .out (e.run env a out).trace = [JNI_ABORT] ∧
    releaseModes .data (e.run env a out).trace = [JNI_ABORT] ∧
    unpacks (e.run env a out).trace =
      [.unpack (dialectUnpacker a.flag) (some a.data)
        (((a.data.length : Int) % 4294967296).toNat) 0] := by
  rw [run_eq_expected, expected_unpack_failure e env a out hc hd ho hu]
  cases (env.selectedUnpack a).ret <;>
    simp [decodes, unpacks, releaseModes, raised, frees]

/-- Witness for C3: `decodeCrunchedETC1`, standard dialect, on a corrupt
container whose unpacking fails after allocating. -/
theorem unpack_failure_is_isolated_witness :
    (EntryPoint.decodeCrunchedETC1.run worldOk corruptArgs [4, 4, 4, 4]).status = 0 ∧
    decodes (EntryPoint.decodeCrunchedETC1.run worldOk corruptArgs [4, 4, 4, 4]).trace = [] ∧
    (EntryPoint.decodeCrunchedETC1.run worldOk corruptArgs [4, 4, 4, 4]).out = [4, 4, 4, 4] ∧
    raised (EntryPoint.decodeCrunchedETC1.run worldOk corruptArgs [4, 4, 4, 4]).trace = [] ∧
    frees (EntryPoint.decodeCrunchedETC1.run worldOk corruptArgs [4, 4, 4, 4]).trace
      = (worldOk.selectedUnpack corruptArgs).ret.toList ∧
    releaseModes .out (EntryPoint.decodeCrunchedETC1.run worldOk corruptArgs [4, 4, 4, 4]).trace
      = [JNI_ABORT] ∧
    releaseModes .data (EntryPoint.decodeCrunchedETC1.run worldOk corruptArgs [4, 4, 4, 4]).trace
      = [JNI_ABORT] ∧
    unpacks (EntryPoint.decodeCrunchedETC1.run worldOk corruptArgs [4, 4, 4, 4]).trace =
      [.unpack (dialectUnpacker corruptArgs.flag) (some corruptArgs.data)
        (((corruptArgs.data.length : Int) % 4294967296).toNat) 0] :=
  unpack_failure_is_isolated .decodeCrunchedETC1 worldOk corruptArgs [4, 4, 4, 4] rfl rfl rfl rfl

/-- C4, evaluated on a valid container: `decodeCrunchedDXT1` pins both arrays,
the unpacker succeeds and leaves an allocated buffer in `*ret`, the call
returns 1, and its trace holds no `delete[]` at all: the unpacked buffer is
not freed on the success path. -/
theorem crunch_success_never_frees_unpacked_buffer :
    (EntryPoint.decodeCrunchedDXT1.run worldOk smallArgs [4, 4, 4, 4]).status = 1 ∧
    (worldOk.selectedUnpack smallArgs).ok = true ∧
    (worldOk.selectedUnpack smallArgs).ret = some [5, 6, 7, 8] ∧
    frees (EntryPoint.decodeCrunchedDXT1.run worldOk smallArgs [4, 4, 4, 4]).trace = [] ∧
    (EntryPoint.decodeCrunchedDXT1.run worldOk smallArgs [4, 4, 4, 4]).trace =
      [.GetArrayLength .data, .GetPrimitiveArrayCritical .data true,
       .GetPrimitiveArrayCritical .out true,
       .unpack .crunch_unpack_level (some [1, 5, 6, 7, 8]) 5 0,
       .decode .decode_bc1 (some [5, 6, 7, 8]) 2 2 [] (some [4, 4, 4, 4]),
       .ReleasePrimitiveArrayCritical .out 0,
       .ReleasePrimitiveArrayCritical .data JNI_ABORT] := by
  refine ⟨rfl, rfl, rfl, rfl, rfl⟩

/-- C5: in every call, whatever the pins and the unpacker do, every pin targets
an array that is not held, every release targets an array that is held, and
nothing is held at the end; each array is released as many times as it was
successfully pinned, which is once when its pin succeeded and never when its
pin returned null. -/
theorem releases_pair_with_acquisitions (e : EntryPoint) (env : Env) (a : Args) (out : Words) :
    wellPaired false false (e.run env a out).trace = true ∧
    (releaseModes .data (e.run env a out).trace).length
      = acquired .data (e.run env a out).trace ∧
    (releaseModes .out (e.run env a out).trace).length
      = acquired .out (e.run env a out).trace ∧
    acquired .data (e.run env a out).trace = (if env.pinData then 1 else 0) ∧
    acquired .out (e.run env a out).trace = (if env.pinOut then 1 else 0) := by
  rw [run_eq_expected]
  rcases run_cases e env a with h | ⟨hc, hd, ho, hu⟩ | ⟨hc, hd, ho, hu⟩ | ⟨hc, hd, ho⟩
  · rw [expected_pin_failure e env a out h]
    cases hd : env.pinData <;> cases ho : env.pinOut <;> cases hc : e.isCrunch <;>
      simp_all [wellPaired, releaseModes, acquired]
  · rw [expected_unpack_failure e env a out hc hd ho hu]
    cases (env.selectedUnpack a).ret <;> simp [wellPaired, releaseModes, acquired, hd, ho]
  · rw [expected_crunch_success e env a out hc hd ho hu]
    simp [wellPaired, releaseModes, acquired, hd, ho]
  · rw [expected_plain_success e env a out hc hd ho]
    simp [wellPaired, releaseModes, acquired, hd, ho]

/-- C6: in every call the input view is released with `JNI_ABORT` whenever it
is released; the output view is released with mode 0 (commit) exactly when a
block codec was called on the pinned output; it is never released with another
mode than 0 or `JNI_ABORT`; and whenever the call returns 0 (pin failure or
unpack failure) every release of the output view is with `JNI_ABORT`. -/
theorem release_modes_follow_decode (e : EntryPoint) (env : Env) (a : Args) (out : Words) :
    (∀ m ∈ releaseModes .data (e.run env a out).trace, m = JNI_ABORT) ∧
    (0 ∈ releaseModes .out (e.run env a out).trace ↔
      some out ∈ decodeTargets (e.run env a out).trace) ∧
    (0 ∈ releaseModes .out (e.run env a out).trace ↔
      decodes (e.run env a out).trace ≠ []) ∧
    (∀ m ∈ releaseModes .out (e.run env a out).trace, m = 0 ∨ m = JNI_ABORT) ∧
    ((e.run env a out).status = 0 →
      ∀ m ∈ releaseModes .out (e.run env a out).trace, m = JNI_ABORT) := by
  rw [run_eq_expected]
  rcases run_cases e env a with h | ⟨hc, hd, ho, hu⟩ | ⟨hc, hd, ho, hu⟩ | ⟨hc, hd, ho⟩
  · rw [expected_pin_failure e env a out h]
    cases hd : env.pinData <;> cases ho : env.pinOut <;> cases hc : e.isCrunch <;>
      simp [releaseModes, decodeTargets, decodes, JNI_ABORT]
  · rw [expected_unpack_failure e env a out hc hd ho hu]
    cases (env.selectedUnpack a).ret <;> simp [releaseModes, decodeTargets, decodes, JNI_ABORT]
  · rw [expected_crunch_success e env a out hc hd ho hu]
    simp [releaseModes, decodeTargets, decodes, JNI_ABORT]
  · rw [expected_plain_success e env a out hc hd ho]
    simp [releaseModes, decodeTargets, decodes, JNI_ABORT]

/-- C7: a call that returns 1 makes exactly one block codec call, to the codec
the table binds to its entry point, with the caller's width and height, the
pinned output, the pinned input bytes (plain entry point) or the unpacked
buffer (crunch entry point), and after the dimensions `1`/`0` for the PVRTC
flag, the block size twice for ASTC, nothing for the others. -/
theorem success_calls_bound_codec_once (e : EntryPoint) (env : Env) (a : Args) (out : Words)
    (hs : (e.run env a out).status = 1) :
    decodes (e.run env a out).trace =
      [.decode e.boundCodec (e.codecInput env a) a.w a.h (e.boundParams a) (some out)] := by
  rw [run_eq_expected] at hs ⊢
  rcases run_cases e env a with h | ⟨hc, hd, ho, hu⟩ | ⟨hc, hd, ho, hu⟩ | ⟨hc, hd, ho⟩
  · rw [expected_pin_failure e env a out h] at hs
    simp at hs
  · rw [expected_unpack_failure e env a out hc hd ho hu] at hs
    simp at hs
  · rw [expected_crunch_success e env a out hc hd ho hu]
    simp [decodes, EntryPoint.codecInput, hc, boundParams_of_isCrunch e a hc]
  · rw [expected_plain_success e env a out hc hd ho]
    simp [decodes, EntryPoint.codecInput, hc]

/-- Witness for C7: `decodeASTC` with block size 4 on a 16x16 request. -/
theorem success_calls_bound_codec_once_witness :
    decodes (EntryPoint.decodeASTC.run worldOk astcArgs [4, 4, 4, 4]).trace =
      [.decode .decode_astc (some astcArgs.data) 16 16 [4, 4] (some [4, 4, 4, 4])] :=
  success_calls_bound_codec_once .decodeASTC worldOk astcArgs [4, 4, 4, 4] rfl

/-- The `uint32_t` a crunch entry point passes as `data_size` is the length of
the array, a Java array holding fewer than `2^31` bytes. -/
theorem dataSize_eq_length (data : Bytes) (h : data.length < 2147483648) :
    (((data.length : Int) % 4294967296).toNat) = data.length := by
  omega

/-- C8: for a crunch entry point the dialect flag selects the unpacker (false:
`crunch_unpack_level`, true: `unity_crunch_unpack_level`), called once for
level 0 on the pinned input with the array's length; and when the standard
unpacker on container `A` and the Unity unpacker on container `B` both succeed
with the same unpacked bytes, the two calls make the same external calls apart
from the unpacker call, return the same status and leave the same `out`. -/
theorem dialect_independence (e : EntryPoint) (env : Env) (A B : Bytes) (w h blockSize : Int)
    (out : Words) (hc : e.isCrunch = true)
    (hA : A.length < 2147483648) (hB : B.length < 2147483648)
    (hokA : (env.crunch_unpack_level (some A) A.length 0).ok = true)
    (hokB : (env.unity_crunch_unpack_level (some B) B.length 0).ok = true)
    (hsame : (env.crunch_unpack_level (some A) A.length 0).ret
      = (env.unity_crunch_unpack_level (some B) B.length 0).ret) :
    (env.pinData = true → env.pinOut = true →
      unpacks (e.run env ⟨A, w, h, false, blockSize⟩ out).trace
        = [.unpack .crunch_unpack_level (some A) A.length 0] ∧
      unpacks (e.run env ⟨B, w, h, true, blockSize⟩ out).trace
        = [.unpack .unity_crunch_unpack_level (some B) B.length 0]) ∧
    withoutUnpacks (e.run env ⟨A, w, h, false, blockSize⟩ out).trace
      = withoutUnpacks (e.run env ⟨B, w, h, true, blockSize⟩ out).trace ∧
    (e.run env ⟨A, w, h, false, blockSize⟩ out).status
      = (e.run env ⟨B, w, h, true, blockSize⟩ out).status ∧
    (e.run env ⟨A, w, h, false, blockSize⟩ out).out
      = (e.run env ⟨B, w, h, true, blockSize⟩ out).out := by
  have eA : env.selectedUnpack ⟨A, w, h, false, blockSize⟩
      = env.crunch_unpack_level (some A) A.length 0 := by
    simp [Env.selectedUnpack, dialectUnpacker, CrunchUnpackCallable.call,
      dataSize_eq_length A hA]
  have eB : env.selectedUnpack ⟨B, w, h, true, blockSize⟩
      = env.unity_crunch_unpack_level (some B) B.length 0 := by
    simp [Env.selectedUnpack, dialectUnpacker, CrunchUnpackCallable.call,
      dataSize_eq_length B hB]
  rw [run_eq_expected, run_eq_expected]
  by_cases hp : env.pinData = true ∧ env.pinOut = true
  · obtain ⟨hd, ho⟩ := hp
    rw [expected_crunch_success e env _ out hc hd ho (by rw [eA]; exact hokA),
      expected_crunch_success e env _ out hc hd ho (by rw [eB]; exact hokB)]
    simp [unpacks, withoutUnpacks, dialectUnpacker, dataSize_eq_length A hA,
      dataSize_eq_length B hB, eA, eB, hsame]
  · have hf : env.pinData = false ∨ env.pinOut = false := by
      cases hd : env.pinData <;> cases ho : env.pinOut <;> simp_all
    rw [expected_pin_failure e env _ out hf, expected_pin_failure e env _ out hf]
    rcases hf with h1 | h1 <;> simp [h1]

/-- Witness for C8: `decodeCrunchedDXT1` on the same four raw bytes wrapped for
the standard dialect and for the Unity dialect. -/
theorem dialect_independence_witness :
    (worldOk.pinData = true → worldOk.pinOut = true →
      unpacks (EntryPoint.decodeCrunchedDXT1.run worldOk
          ⟨[1, 5, 6, 7, 8], 2, 2, false, 0⟩ [4, 4, 4, 4, 4]).trace
        = [.unpack .crunch_unpack_level (some [1, 5, 6, 7, 8]) 5 0] ∧
      unpacks (EntryPoint.decodeCrunchedDXT1.run worldOk
          ⟨[2, 5, 6, 7, 8], 2, 2, true, 0⟩ [4, 4, 4, 4, 4]).trace
        = [.unpack .unity_crunch_unpack_level (some [2, 5, 6, 7, 8]) 5 0]) ∧
    withoutUnpacks (EntryPoint.decodeCrunchedDXT1.run worldOk
        ⟨[1, 5, 6, 7, 8], 2, 2, false, 0⟩ [4, 4, 4, 4, 4]).trace
      = withoutUnpacks (EntryPoint.decodeCrunchedDXT1.run worldOk
        ⟨[2, 5, 6, 7, 8], 2, 2, true, 0⟩ [4, 4, 4, 4, 4]).trace ∧
    (EntryPoint.decodeCrunchedDXT1.run worldOk
        ⟨[1, 5, 6, 7, 8], 2, 2, false, 0⟩ [4, 4, 4, 4, 4]).status
      = (EntryPoint.decodeCrunchedDXT1.run worldOk
        ⟨[2, 5, 6, 7, 8], 2, 2, true, 0⟩ [4, 4, 4, 4, 4]).status ∧
    (EntryPoint.decodeCrunchedDXT1.run worldOk
        ⟨[1, 5, 6, 7, 8], 2, 2, false, 0⟩ [4, 4, 4, 4, 4]).out
      = (EntryPoint.decodeCrunchedDXT1.run worldOk
        ⟨[2, 5, 6, 7, 8], 2, 2, true, 0⟩ [4, 4, 4, 4, 4]).out :=
  dialect_independence .decodeCrunchedDXT1 worldOk [1, 5, 6, 7, 8] [2, 5, 6, 7, 8] 2 2 0
    [4, 4, 4, 4, 4] rfl (by decide) (by decide) rfl rfl rfl

/-- C9: for every entry point and valid dimensions, with an output of at least
`width * height` words, a call that returns 1 leaves in `out` the surface its
codec decodes (from the codec input, dimensions and parameters of the call) at
every index below `width * height`, leaves every word at an index from
`width * height` on as it was, and does not change the length of `out`. -/
theorem success_writes_exactly_width_times_height (e : EntryPoint) (env : Env) (a : Args)
    (out : Words) (hw : 0 ≤ a.w) (hh : 0 ≤ a.h)
    (hcap : a.w.toNat * a.h.toNat ≤ out.length)
    (hs : (e.run env a out).status = 1) :
    (∀ i, i < a.w.toNat * a.h.toNat →
      (e.run env a out).out[i]? =
        some (env.surface e.boundCodec (e.codecInput env a) a.w a.h (e.boundParams a) i)) ∧
    (∀ i, a.w.toNat * a.h.toNat ≤ i → (e.run env a out).out[i]? = out[i]?) ∧
    (e.run env a out).out.length = out.length := by
  have hn := toNat_mul_of_nonneg a.w a.h hw hh
  rw [run_eq_expected] at hs ⊢
  rcases run_cases e env a with h | ⟨hc, hd, ho, hu⟩ | ⟨hc, hd, ho, hu⟩ | ⟨hc, hd, ho⟩
  · rw [expected_pin_failure e env a out h] at hs
    simp at hs
  · rw [expected_unpack_failure e env a out hc hd ho hu] at hs
    simp at hs
  · rw [expected_crunch_success e env a out hc hd ho hu]
    simp only [EntryPoint.codecInput, hc, if_true, boundParams_of_isCrunch e a hc]
    refine ⟨fun i hi => decodedOut_getElem?_lt _ _ _ _ _ _ _ _ (by omega),
      fun i hi => decodedOut_getElem?_ge _ _ _ _ _ _ _ _ (by omega),
      decodedOut_length _ _ _ _ _ _ _ (by omega)⟩
  · rw [expected_plain_success e env a out hc hd ho]
    simp only [EntryPoint.codecInput, hc]
    refine ⟨fun i hi => decodedOut_getElem?_lt _ _ _ _ _ _ _ _ (by omega),
      fun i hi => decodedOut_getElem?_ge _ _ _ _ _ _ _ _ (by omega),
      decodedOut_length _ _ _ _ _ _ _ (by omega)⟩

/-- Witness for C9: `decodeASTC` with block size 4 on 16x16 data and an output
of 260 words writes the 256 decoded pixels and leaves the last 4 words. -/
theorem success_writes_exactly_width_times_height_witness :
    (∀ i, i < 256 →
      (EntryPoint.decodeASTC.run worldOk astcArgs (List.replicate 260 7)).out[i]? =
        some (worldOk.surface .decode_astc (some astcArgs.data) 16 16 [4, 4] i)) ∧
    (∀ i, 256 ≤ i →
      (EntryPoint.decodeASTC.run worldOk astcArgs (List.replicate 260 7)).out[i]?
        = (List.replicate 260 7)[i]?) ∧
    (EntryPoint.decodeASTC.run worldOk astcArgs (List.replicate 260 7)).out.length
      = (List.replicate 260 7).length :=
  success_writes_exactly_width_times_height .decodeASTC worldOk astcArgs (List.replicate 260 7)
    (by decide) (by decide) (by rw [List.length_replicate]; decide) rfl

/-- C10: in every call, each call into the Java runtime other than a pin or a
release (`GetArrayLength`, `FindClass`, `ThrowNew`) happens while no view is
held; no `GetArrayLength` follows a pin attempt; and the pins of the call are
one attempt on `data` then one on `out`, none of them after a release. -/
theorem critical_section_is_short (e : EntryPoint) (env : Env) (a : Args) (out : Words) :
    runtimeQuiet 0 (e.run env a out).trace = true ∧
    lengthQueryAfterPin false (e.run env a out).trace = false ∧
    pinAttempts (e.run env a out).trace = [.data, .out] ∧
    pinAfterRelease false (e.run env a out).trace = false := by
  rw [run_eq_expected]
  rcases run_cases e env a with h | ⟨hc, hd, ho, hu⟩ | ⟨hc, hd, ho, hu⟩ | ⟨hc, hd, ho⟩
  · rw [expected_pin_failure e env a out h]
    cases hd : env.pinData <;> cases ho : env.pinOut <;> cases hc : e.isCrunch <;>
      simp_all [runtimeQuiet, lengthQueryAfterPin, pinAttempts, pinAfterRelease]
  · rw [expected_unpack_failure e env a out hc hd ho hu]
    cases (env.selectedUnpack a).ret <;>
      simp [runtimeQuiet, lengthQueryAfterPin, pinAttempts, pinAfterRelease]
  · rw [expected_crunch_success e env a out hc hd ho hu]
    simp [runtimeQuiet, lengthQueryAfterPin, pinAttempts, pinAfterRelease]
  · rw [expected_plain_success e env a out hc hd ho]
    simp [runtimeQuiet, lengthQueryAfterPin, pinAttempts, pinAfterRelease]
